import Mathlib

/-!
Verification of the scaled geometry & measurement engine of the urbassist
technical-drawing editor.

The definitions below are shallow embeddings of the functions in
`src/app/editor/page.tsx` and `src/components/editor/CanvasEditor.tsx`.
JavaScript numbers are modelled as real numbers (`ℝ`); the purely
state-machine parts (grid settings, measurement-label map, movement ticks)
use `ℚ` where the source performs no irrational arithmetic, so that they
stay decidable.  Rendering-only attributes (colors, stroke widths, dash
patterns, font settings) are omitted from the embedded primitives; geometry,
text content and angles are kept.
-/

namespace Urbassist

/-! ## JS `Math` prelude -/

/-- JS `Math.atan2(y, x)` (principal value in `(-π, π]`; `atan2(0, 0) = 0`,
signed zeros are not modelled). -/
noncomputable def atan2 (y x : ℝ) : ℝ :=
  if 0 < x then Real.arctan (y / x)
  else if x < 0 then
    if 0 ≤ y then Real.arctan (y / x) + Real.pi else Real.arctan (y / x) - Real.pi
  else if 0 < y then Real.pi / 2
  else if y < 0 then -(Real.pi / 2)
  else 0

/-- The integer chosen by JS `Number.prototype.toFixed(f)`: the `n` with
`n / 10^f` closest to `x`, ties toward the larger `n` (ECMA-262), i.e.
`⌊x·10^f + 1/2⌋`. -/
noncomputable def jsRound (f : ℕ) (x : ℝ) : ℤ :=
  ⌊x * 10 ^ f + 1 / 2⌋

/-- Left-pad a digit string with zeros up to width `f`. -/
def padZeros (f : ℕ) (s : String) : String :=
  String.mk (List.replicate (f - s.length) '0') ++ s

/-- Render the integer `n` as a fixed-point numeral with `f` digits after the
decimal point (the digit-printing part of `toFixed`). -/
def fixedDigits (f : ℕ) (n : ℤ) : String :=
  let sign := if n < 0 then "-" else ""
  let m := n.natAbs
  if f = 0 then sign ++ toString m
  else sign ++ toString (m / 10 ^ f) ++ "." ++ padZeros f (toString (m % 10 ^ f))

/-- JS `x.toFixed(f)` on the reals. -/
noncomputable def jsToFixed (f : ℕ) (x : ℝ) : String :=
  fixedDigits f (jsRound f x)

/-! ## Unit Converter (`src/app/editor/page.tsx`, lines 106-122)

The source functions close over `currentScale`; here `pixelsPerMeter` is an
explicit first argument. -/

/-- Source `pixelsToMeters(pixels) = pixels / currentScale.pixelsPerMeter`. -/
noncomputable def pixelsToMeters (pixelsPerMeter pixels : ℝ) : ℝ :=
  pixels / pixelsPerMeter

/-- Source `metersToPixels(meters) = meters * currentScale.pixelsPerMeter`. -/
noncomputable def metersToPixels (pixelsPerMeter meters : ℝ) : ℝ :=
  meters * pixelsPerMeter

/-- Source `formatMeasurement(meters)`: `< 1` meter renders as whole centimeters,
otherwise as meters with two decimals. -/
noncomputable def formatMeasurement (meters : ℝ) : String :=
  if meters < 1 then jsToFixed 0 (meters * 100) ++ " cm"
  else jsToFixed 2 meters ++ " m"

/-- Source `calculateDistance(x1, y1, x2, y2)` (page.tsx lines 124-128): Euclidean
pixel distance converted to meters. -/
noncomputable def calculateDistance (pixelsPerMeter x1 y1 x2 y2 : ℝ) : ℝ :=
  pixelsToMeters pixelsPerMeter (Real.sqrt ((x2 - x1) ^ 2 + (y2 - y1) ^ 2))

/-! ## Dimension Annotation Generator (`src/app/editor/page.tsx`, lines 130-240) -/

/-- A canvas primitive as produced by the measurement code: a `fabric.Line`
(endpoint coordinates), a `fabric.Polygon` (point list) or a `fabric.Text`
(content, position, rotation angle).  Styling attributes are omitted. -/
inductive FabricPrim where
  | line (x1 y1 x2 y2 : ℝ)
  | poly (points : List (ℝ × ℝ))
  | text (content : String) (left top angle : ℝ)

/-- The ternary on line 217 of page.tsx:
`textAngle > 90 || textAngle < -90 ? textAngle + 180 : textAngle`. -/
noncomputable def adjustAngle (textAngle : ℝ) : ℝ :=
  if textAngle > 90 ∨ textAngle < -90 then textAngle + 180 else textAngle

/-- Source `createDimensionLine(x1, y1, x2, y2, parentId, offset, color)`:
returns `[]` when the canvas ref is null, otherwise the six primitives
`[dimensionLine, ext1, ext2, arrow1, arrow2, text]` that it adds to the
canvas.  The text object uses `originX/originY: "center"`, so its position
is the point `(dimMidX, dimMidY - 8)` it is given. -/
noncomputable def createDimensionLine (canvasPresent : Bool)
    (pixelsPerMeter x1 y1 x2 y2 offset : ℝ) : List FabricPrim :=
  if canvasPresent = false then [] else
  let distance := calculateDistance pixelsPerMeter x1 y1 x2 y2
  let label := formatMeasurement distance
  let angle := atan2 (y2 - y1) (x2 - x1)
  let midX := (x1 + x2) / 2
  let midY := (y1 + y2) / 2
  let offsetX := Real.sin angle * offset
  let offsetY := -Real.cos angle * offset
  let dimX1 := x1 + offsetX
  let dimY1 := y1 + offsetY
  let dimX2 := x2 + offsetX
  let dimY2 := y2 + offsetY
  let dimMidX := midX + offsetX
  let dimMidY := midY + offsetY
  let arrowSize : ℝ := 6
  let arrow1Points : List (ℝ × ℝ) :=
    [(dimX1, dimY1),
     (dimX1 + Real.cos (angle - Real.pi / 6) * arrowSize,
      dimY1 + Real.sin (angle - Real.pi / 6) * arrowSize),
     (dimX1 + Real.cos (angle + Real.pi / 6) * arrowSize,
      dimY1 + Real.sin (angle + Real.pi / 6) * arrowSize)]
  let arrow2Points : List (ℝ × ℝ) :=
    [(dimX2, dimY2),
     (dimX2 - Real.cos (angle - Real.pi / 6) * arrowSize,
      dimY2 - Real.sin (angle - Real.pi / 6) * arrowSize),
     (dimX2 - Real.cos (angle + Real.pi / 6) * arrowSize,
      dimY2 - Real.sin (angle + Real.pi / 6) * arrowSize)]
  let textAngle := angle * 180 / Real.pi
  [FabricPrim.line dimX1 dimY1 dimX2 dimY2,
   FabricPrim.line x1 y1 dimX1 dimY1,
   FabricPrim.line x2 y2 dimX2 dimY2,
   FabricPrim.poly arrow1Points,
   FabricPrim.poly arrow2Points,
   FabricPrim.text label dimMidX (dimMidY - 8) (adjustAngle textAngle)]

/-- The Dimension Annotation Generator as the spec's §4.6 words it, for
comparison with `createDimensionLine`: same offset dimension line, extension
lines and arrowheads, but with the label position "at the offset midpoint"
(the arrowheads, which claim C5 leaves unspecified, are taken verbatim from
the source). -/
noncomputable def specBuildDimension (pixelsPerMeter x1 y1 x2 y2 offset : ℝ) :
    List FabricPrim :=
  let distance := calculateDistance pixelsPerMeter x1 y1 x2 y2
  let label := formatMeasurement distance
  let angle := atan2 (y2 - y1) (x2 - x1)
  let midX := (x1 + x2) / 2
  let midY := (y1 + y2) / 2
  let offsetX := Real.sin angle * offset
  let offsetY := -Real.cos angle * offset
  let dimX1 := x1 + offsetX
  let dimY1 := y1 + offsetY
  let dimX2 := x2 + offsetX
  let dimY2 := y2 + offsetY
  let arrowSize : ℝ := 6
  let arrow1Points : List (ℝ × ℝ) :=
    [(dimX1, dimY1),
     (dimX1 + Real.cos (angle - Real.pi / 6) * arrowSize,
      dimY1 + Real.sin (angle - Real.pi / 6) * arrowSize),
     (dimX1 + Real.cos (angle + Real.pi / 6) * arrowSize,
      dimY1 + Real.sin (angle + Real.pi / 6) * arrowSize)]
  let arrow2Points : List (ℝ × ℝ) :=
    [(dimX2, dimY2),
     (dimX2 - Real.cos (angle - Real.pi / 6) * arrowSize,
      dimY2 - Real.sin (angle - Real.pi / 6) * arrowSize),
     (dimX2 - Real.cos (angle + Real.pi / 6) * arrowSize,
      dimY2 - Real.sin (angle + Real.pi / 6) * arrowSize)]
  let textAngle := angle * 180 / Real.pi
  [FabricPrim.line dimX1 dimY1 dimX2 dimY2,
   FabricPrim.line x1 y1 dimX1 dimY1,
   FabricPrim.line x2 y2 dimX2 dimY2,
   FabricPrim.poly arrow1Points,
   FabricPrim.poly arrow2Points,
   FabricPrim.text label (midX + offsetX) (midY + offsetY) (adjustAngle textAngle)]

/-- Shift a text primitive down by 8 pixels, leaving everything else alone
(the one discrepancy between the source's dimension label and the spec's
"label at the offset midpoint"). -/
def labelShiftedDown8 : FabricPrim → FabricPrim
  | FabricPrim.text s l t a => FabricPrim.text s l (t - 8) a
  | p => p

/-- The vertical positions of the text primitives in a primitive list. -/
def textTops (l : List FabricPrim) : List ℝ :=
  l.filterMap fun p =>
    match p with
    | FabricPrim.text _ _ top _ => some top
    | _ => none

/-! ## Measurement-label registry (`measurementLabelsRef`, page.tsx line 104)

A JS `Map<string, fabric.FabricObject[]>` modelled as an insertion-ordered
association list. -/

/-- The `measurementLabelsRef.current` map. -/
abbrev MeasMap := List (String × List FabricPrim)

/-- JS `Map.prototype.get`. -/
def mapGet : MeasMap → String → Option (List FabricPrim)
  | [], _ => none
  | kv :: rest, id => if kv.1 = id then some kv.2 else mapGet rest id

/-- JS `Map.prototype.delete` (drops the entry for `id`). -/
def mapDelete : MeasMap → String → MeasMap
  | [], _ => []
  | kv :: rest, id =>
      if kv.1 = id then mapDelete rest id else kv :: mapDelete rest id

/-- JS `Map.prototype.set`: overwrite in place if the key exists, else append
(keys are unique, so updating the first occurrence is the JS behaviour). -/
def mapSet : MeasMap → String → List FabricPrim → MeasMap
  | [], id, v => [(id, v)]
  | kv :: rest, id, v =>
      if kv.1 = id then (id, v) :: rest else kv :: mapSet rest id v

/-! ## Per-shape measurement builders (page.tsx, lines 242-348)

Each `addXMeasurements` helper builds the primitives for one shape and stores
them in the map under the shape's id (`measurementLabelsRef.current.set`).
The fabric transform matrix `[a, b, c, d, e, f]` maps
`(x, y) ↦ (a·x + c·y + e, b·x + d·y + f)`. -/

/-- A fabric 2×3 transform matrix `[a, b, c, d, e, f]`. -/
structure TMat where
  a : ℝ
  b : ℝ
  c : ℝ
  d : ℝ
  e : ℝ
  f : ℝ

/-- Fabric's `fabric.util.transformPoint`. -/
noncomputable def transformPoint (p : ℝ × ℝ) (t : TMat) : ℝ × ℝ :=
  (t.a * p.1 + t.c * p.2 + t.e, t.b * p.1 + t.d * p.2 + t.f)

/-- The primitives produced by `addRectMeasurements`: a bottom-edge dimension
and a right-edge dimension, both at offset 25, over the effective
(scale-multiplied) size. -/
noncomputable def rectMeasurementPrims (canvasPresent : Bool)
    (pixelsPerMeter left top width height scaleX scaleY : ℝ) : List FabricPrim :=
  let w := width * scaleX
  let h := height * scaleY
  createDimensionLine canvasPresent pixelsPerMeter left (top + h) (left + w) (top + h) 25 ++
  createDimensionLine canvasPresent pixelsPerMeter (left + w) top (left + w) (top + h) 25

/-- Source `addRectMeasurements(rect, id)` as a map update. -/
noncomputable def addRectMeasurements (canvasPresent : Bool)
    (pixelsPerMeter : ℝ) (m : MeasMap) (id : String)
    (left top width height scaleX scaleY : ℝ) : MeasMap :=
  mapSet m id
    (rectMeasurementPrims canvasPresent pixelsPerMeter left top width height scaleX scaleY)

/-- The loop body of `addPolygonMeasurements`: one dimension line per edge of
the transformed polygon (wrap-around via `% points.length`), offset 25. -/
noncomputable def polygonMeasurementPrims (canvasPresent : Bool)
    (pixelsPerMeter : ℝ) (matrix : TMat) (points : List (ℝ × ℝ)) : List FabricPrim :=
  (List.range points.length).flatMap fun i =>
    let p1 := points.getD i (0, 0)
    let p2 := points.getD ((i + 1) % points.length) (0, 0)
    let t1 := transformPoint p1 matrix
    let t2 := transformPoint p2 matrix
    createDimensionLine canvasPresent pixelsPerMeter t1.1 t1.2 t2.1 t2.2 25

/-- Source `addPolygonMeasurements(polygon, id)` as a map update: the early return
`if (!points || points.length < 2) return;` leaves the map untouched. -/
noncomputable def addPolygonMeasurements (canvasPresent : Bool)
    (pixelsPerMeter : ℝ) (matrix : TMat) (points : List (ℝ × ℝ))
    (m : MeasMap) (id : String) : MeasMap :=
  if points.length < 2 then m
  else mapSet m id (polygonMeasurementPrims canvasPresent pixelsPerMeter matrix points)

/-- Source `addLineMeasurement(line, id)` as a map update (offset 20). -/
noncomputable def addLineMeasurement (canvasPresent : Bool)
    (pixelsPerMeter : ℝ) (m : MeasMap) (id : String) (x1 y1 x2 y2 : ℝ) : MeasMap :=
  mapSet m id (createDimensionLine canvasPresent pixelsPerMeter x1 y1 x2 y2 20)

/-- The two primitives of `addCircleMeasurements`: a dashed diameter line and
a diameter label (the source's label prefix is its literal mojibake
"√ò " for "Ø "). -/
noncomputable def circleMeasurementPrims
    (pixelsPerMeter left top radius scaleX : ℝ) : List FabricPrim :=
  let centerX := left + radius
  let centerY := top + radius
  let r := radius * scaleX
  let diameter := pixelsToMeters pixelsPerMeter (r * 2)
  [FabricPrim.line (centerX - r) centerY (centerX + r) centerY,
   FabricPrim.text ("√ò " ++ formatMeasurement diameter) centerX (centerY - r - 20) 0]

/-- Source `addCircleMeasurements(circle, id)` as a map update: it returns before
touching the map when the canvas ref is null. -/
noncomputable def addCircleMeasurements (canvasPresent : Bool)
    (pixelsPerMeter : ℝ) (m : MeasMap) (id : String)
    (left top radius scaleX : ℝ) : MeasMap :=
  if canvasPresent = false then m
  else mapSet m id (circleMeasurementPrims pixelsPerMeter left top radius scaleX)

/-- Source `removeMeasurements(id)` (page.tsx lines 350-360): early return when the
canvas ref is null, otherwise the entry for `id` is removed. -/
def removeMeasurements (canvasPresent : Bool) (m : MeasMap) (id : String) : MeasMap :=
  if canvasPresent = false then m else mapDelete m id

/-- The geometry snapshot `updateObjectMeasurements` dispatches on
(`obj.type`).  `other` covers every fabric type outside the four measured
kinds (e.g. text). -/
inductive FShape where
  | rect (left top width height scaleX scaleY : ℝ)
  | polygon (matrix : TMat) (points : List (ℝ × ℝ))
  | line (x1 y1 x2 y2 : ℝ)
  | circle (left top radius scaleX : ℝ)
  | other

/-- Source `updateObjectMeasurements(obj)` (page.tsx lines 362-378): discard the
stored set for the shape's id, then rebuild it from the current geometry. -/
noncomputable def updateObjectMeasurements (canvasPresent : Bool)
    (pixelsPerMeter : ℝ) (m : MeasMap) (id : String) (s : FShape) : MeasMap :=
  let m1 := removeMeasurements canvasPresent m id
  match s with
  | FShape.rect l t w h sx sy =>
      addRectMeasurements canvasPresent pixelsPerMeter m1 id l t w h sx sy
  | FShape.polygon matrix pts =>
      addPolygonMeasurements canvasPresent pixelsPerMeter matrix pts m1 id
  | FShape.line x1 y1 x2 y2 =>
      addLineMeasurement canvasPresent pixelsPerMeter m1 id x1 y1 x2 y2
  | FShape.circle l t r sx =>
      addCircleMeasurements canvasPresent pixelsPerMeter m1 id l t r sx
  | FShape.other => m1

/-! ## Interactive drawing handlers (page.tsx, lines 598-743) -/

/-- The editor's tool palette (`type Tool`, page.tsx line 35). -/
inductive Tool where
  | select
  | rectangle
  | circle
  | line
  | polygon
  | text
  | pan
  | measure
  | parcel
deriving DecidableEq

/-- A shape committed by `handleMouseUp`. -/
inductive CommittedShape where
  | line (x1 y1 x2 y2 : ℝ)
  | measureLine (x1 y1 x2 y2 : ℝ)
  | rect (left top width height : ℝ)
  | circle (left top radius : ℝ)

/-- Source `handleMouseUp` (page.tsx lines 613-685): the shape committed to the
canvas (if any) and the resulting measurement map.  `isDrawing = false`
models the `!isDrawing || !drawingStart` early return; `(sx, sy)` is
`drawingStart`, `(px, py)` the pointer.  A freshly created rectangle has
fabric's default `scaleX = scaleY = 1`. -/
noncomputable def handleMouseUp (isDrawing : Bool) (activeTool : Tool)
    (pixelsPerMeter sx sy px py : ℝ) (m : MeasMap) (shapeId : String) :
    Option CommittedShape × MeasMap :=
  if isDrawing = false then (none, m) else
  match activeTool with
  | Tool.line =>
      (some (CommittedShape.line sx sy px py),
       addLineMeasurement true pixelsPerMeter m shapeId sx sy px py)
  | Tool.measure =>
      (some (CommittedShape.measureLine sx sy px py),
       addLineMeasurement true pixelsPerMeter m shapeId sx sy px py)
  | Tool.rectangle =>
      let left := min sx px
      let top := min sy py
      let width := |px - sx|
      let height := |py - sy|
      if 5 < width ∧ 5 < height then
        (some (CommittedShape.rect left top width height),
         addRectMeasurements true pixelsPerMeter m shapeId left top width height 1 1)
      else (none, m)
  | Tool.circle =>
      let radiusPx := Real.sqrt ((px - sx) ^ 2 + (py - sy) ^ 2)
      if 5 < radiusPx then
        (some (CommittedShape.circle (sx - radiusPx) (sy - radiusPx) radiusPx),
         addCircleMeasurements true pixelsPerMeter m shapeId
           (sx - radiusPx) (sy - radiusPx) radiusPx 1)
      else (none, m)
  | _ => (none, m)

/-- Source `handleDoubleClick` (page.tsx lines 703-735): completes the in-progress
polygon only for the polygon/parcel tools with at least 3 placed points,
returning the centroid and the centroid-normalized vertex list; otherwise no
polygon is created. -/
noncomputable def handleDoubleClick (activeTool : Tool)
    (polygonPoints : List (ℝ × ℝ)) : Option ((ℝ × ℝ) × List (ℝ × ℝ)) :=
  if (activeTool = Tool.polygon ∨ activeTool = Tool.parcel) ∧ 3 ≤ polygonPoints.length then
    let centroidX := (polygonPoints.map Prod.fst).sum / polygonPoints.length
    let centroidY := (polygonPoints.map Prod.snd).sum / polygonPoints.length
    some ((centroidX, centroidY),
          polygonPoints.map fun p => (p.1 - centroidX, p.2 - centroidY))
  else none

end Urbassist

namespace CanvasEditor

/-! ## `src/components/editor/CanvasEditor.tsx`

This component's numeric state machine (measurement calculator, the
`object:moving` handler, the guide state) involves no irrational arithmetic,
so it is embedded over `ℚ` and stays fully executable.  `snapToGrid` and
`findAlignmentGuides` are imported there from `@/lib/drawingTools`, a file
absent from the source tree; they are modelled from the spec below. -/

/-- Constant `BASE_PIXELS_PER_METER = 10` (CanvasEditor.tsx line 24: pixels per meter
at scale 1:100). -/
def BASE_PIXELS_PER_METER : ℚ := 10

/-- The `rect` branch of `updateMeasurements` (CanvasEditor.tsx lines
216-239): `(area, perimeter)` computed from the effective size, dividing by
`scale * scale * 10000` resp. `scale * 100`. -/
def updateMeasurementsRect (scale width height scaleX scaleY : ℚ) : ℚ × ℚ :=
  let w := width * scaleX
  let h := height * scaleY
  ((w * h) / (scale * scale * 10000), (2 * (w + h)) / (scale * 100))

/-- An axis-aligned bounding box as built in the `object:moving` handler
(left, top, effective width/height, shape id). -/
structure BBox where
  left : ℚ
  top : ℚ
  width : ℚ
  height : ℚ
  id : String
deriving DecidableEq

/-- A guide axis. -/
inductive GuideType where
  | vertical
  | horizontal
deriving DecidableEq

/-- Guide record `AlignmentGuide` with its type, position and relatedId. -/
structure AlignmentGuide where
  type : GuideType
  position : ℚ
  relatedId : String
deriving DecidableEq

/-- Modelled from the spec: `snapToGrid` is imported from
`@/lib/drawingTools`, which is not in the source tree.  §4.2: each
coordinate is independently rounded to the nearest multiple of the grid cell
size (in pixels, already scaled); the call sites pass the grid size and the
pixels-per-meter factor separately, so the scaled cell is
`size * pixelsPerMeter`. -/
def snapToGrid (x y size pixelsPerMeter : ℚ) : ℚ × ℚ :=
  let cell := size * pixelsPerMeter
  (round (x / cell) * cell, round (y / cell) * cell)

/-- Modelled from the spec: `findAlignmentGuides` is imported from
`@/lib/drawingTools`, which is not in the source tree.  §4.4: for each
candidate axis (vertical: left edge, right edge, horizontal-center;
horizontal: top edge, bottom edge, vertical-center) compare the moving box
against every other box; on `|Δ| < ε` emit a guide at the matched shape's
position tagged with the axis and that shape's id; per axis the first match
in insertion order wins. -/
def findAlignmentGuides (current : BBox) (others : List BBox) (threshold : ℚ) :
    List AlignmentGuide :=
  let vVals : List (BBox → ℚ) :=
    [fun b => b.left, fun b => b.left + b.width, fun b => b.left + b.width / 2]
  let hVals : List (BBox → ℚ) :=
    [fun b => b.top, fun b => b.top + b.height, fun b => b.top + b.height / 2]
  (vVals.filterMap fun f =>
    (others.find? fun o => decide (|f o - f current| < threshold)).map fun o =>
      { type := GuideType.vertical, position := f o, relatedId := o.id })
  ++ (hVals.filterMap fun f =>
    (others.find? fun o => decide (|f o - f current| < threshold)).map fun o =>
      { type := GuideType.horizontal, position := f o, relatedId := o.id })

/-- The `gridSettings` state (`DEFAULT_GRID_SETTINGS` itself lives in the
missing `@/lib/drawingTools`; only the fields the handler reads are kept). -/
structure GridSettings where
  snapToGrid : Bool
  autoAlign : Bool
  size : ℚ
  alignThreshold : ℚ

/-- A canvas object as seen by the `object:moving` handler. -/
structure MovingObject where
  left : ℚ
  top : ℚ
  width : ℚ
  height : ℚ
  scaleX : ℚ
  scaleY : ℚ
  id : String
  selectable : Bool
  type : String

/-- The bounding boxes of the other canvas objects, filtered as on lines
107-127: selectable, not of type `line` (the moving target itself is already
excluded from `others`). -/
def otherBoundsOf (others : List MovingObject) : List BBox :=
  (others.filter fun o => o.selectable && o.type != "line").map fun o =>
    { left := o.left, top := o.top, width := o.width * o.scaleX,
      height := o.height * o.scaleY, id := o.id }

/-- The `guides.forEach` clamp (lines 133-145): each matched guide within the
threshold overwrites the corresponding coordinate; the mismatch test always
uses the snapped `left`/`top` locals, which the loop never reassigns. -/
def applyGuides (threshold snappedLeft snappedTop : ℚ)
    (guides : List AlignmentGuide) : ℚ × ℚ :=
  guides.foldl (fun p g =>
    match g.type with
    | GuideType.vertical =>
        if |snappedLeft - g.position| < threshold then (g.position, p.2) else p
    | GuideType.horizontal =>
        if |snappedTop - g.position| < threshold then (p.1, g.position) else p)
    (snappedLeft, snappedTop)

/-- One `object:moving` tick (CanvasEditor.tsx lines 90-149): snap the
proposed position, then detect alignment guides from the snapped bounds and
replace the guide state wholesale, then clamp onto matched guides.  With
`autoAlign` off the handler leaves the guide state as it was.  Returns the
final `(left, top)` and the guide state after the tick. -/
def objectMovingTick (gs : GridSettings) (scale : ℚ) (target : MovingObject)
    (others : List MovingObject) (prevGuides : List AlignmentGuide) :
    (ℚ × ℚ) × List AlignmentGuide :=
  let lt0 := (target.left, target.top)
  let lt1 := if gs.snapToGrid then
      snapToGrid lt0.1 lt0.2 gs.size (scale * BASE_PIXELS_PER_METER)
    else lt0
  if gs.autoAlign then
    let currentBounds : BBox :=
      { left := lt1.1, top := lt1.2, width := target.width * target.scaleX,
        height := target.height * target.scaleY, id := target.id }
    let guides := findAlignmentGuides currentBounds (otherBoundsOf others) gs.alignThreshold
    (applyGuides gs.alignThreshold lt1.1 lt1.2 guides, guides)
  else (lt1, prevGuides)

/-- The `object:modified` handler registered on line 151: the movement
gesture has ended, the guide state is reset to `[]` unconditionally. -/
def objectModifiedGuides (prevGuides : List AlignmentGuide) : List AlignmentGuide :=
  let _ := prevGuides
  []

end CanvasEditor

namespace Urbassist

/-! ## Helper lemmas -/

theorem mapGet_mapDelete_ne (m : MeasMap) (id id' : String) (h : id' ≠ id) :
    mapGet (mapDelete m id) id' = mapGet m id' := by
  induction m with
  | nil => rfl
  | cons kv rest ih =>
    by_cases hk : kv.1 = id
    · have hk' : ¬kv.1 = id' := fun e => h (e.symm.trans hk)
      simp [mapDelete, mapGet, hk, hk', ih, h, h.symm]
    · simp only [mapDelete, if_neg hk]
      by_cases hk' : kv.1 = id'
      · simp [mapGet, hk']
      · simp [mapGet, hk', ih]

theorem mapGet_mapDelete_self (m : MeasMap) (id : String) :
    mapGet (mapDelete m id) id = none := by
  induction m with
  | nil => rfl
  | cons kv rest ih =>
    by_cases hk : kv.1 = id
    · simp [mapDelete, hk, ih]
    · simp [mapDelete, mapGet, hk, ih]

theorem mapGet_mapSet_self (m : MeasMap) (id : String) (v : List FabricPrim) :
    mapGet (mapSet m id v) id = some v := by
  induction m with
  | nil => simp [mapSet, mapGet]
  | cons kv rest ih =>
    by_cases hk : kv.1 = id
    · simp [mapSet, mapGet, hk]
    · simp [mapSet, mapGet, hk, ih]

theorem mapGet_mapSet_ne (m : MeasMap) (id id' : String) (v : List FabricPrim)
    (h : id' ≠ id) :
    mapGet (mapSet m id v) id' = mapGet m id' := by
  induction m with
  | nil => simp [mapSet, mapGet, h.symm]
  | cons kv rest ih =>
    by_cases hk : kv.1 = id
    · have hk' : ¬kv.1 = id' := fun e => h (e.symm.trans hk)
      simp [mapSet, mapGet, hk, hk', h, h.symm]
    · by_cases hk' : kv.1 = id'
      · simp [mapSet, mapGet, hk, hk', h, h.symm]
      · simp [mapSet, mapGet, hk, hk', ih]

/-- Cosine and sine of `atan2 y x` on any nonzero vector: the normalized
direction `(x, y) / ‖(x, y)‖`. -/
theorem cos_sin_atan2 (y x : ℝ) (h : ¬(x = 0 ∧ y = 0)) :
    Real.cos (atan2 y x) = x / Real.sqrt (x ^ 2 + y ^ 2) ∧
    Real.sin (atan2 y x) = y / Real.sqrt (x ^ 2 + y ^ 2) := by
  have hr2 : 0 < x ^ 2 + y ^ 2 := by
    rcases not_and_or.mp h with hx | hy
    · have := pow_two_pos_of_ne_zero hx
      nlinarith [sq_nonneg y]
    · have := pow_two_pos_of_ne_zero hy
      nlinarith [sq_nonneg x]
  have hr : 0 < Real.sqrt (x ^ 2 + y ^ 2) := Real.sqrt_pos.mpr hr2
  unfold atan2
  by_cases hx : 0 < x
  · rw [if_pos hx]
    have hxne : x ≠ 0 := ne_of_gt hx
    have hkey : Real.sqrt (1 + (y / x) ^ 2) = Real.sqrt (x ^ 2 + y ^ 2) / x := by
      have h1 : 1 + (y / x) ^ 2 = (x ^ 2 + y ^ 2) / x ^ 2 := by field_simp
      rw [h1, Real.sqrt_div' _ (sq_nonneg x), Real.sqrt_sq hx.le]
    constructor
    · rw [Real.cos_arctan, hkey, one_div_div]
    · rw [Real.sin_arctan, hkey]
      field_simp
  · rw [if_neg hx]
    by_cases hx' : x < 0
    · rw [if_pos hx']
      have hxne : x ≠ 0 := ne_of_lt hx'
      have hkey : Real.sqrt (1 + (y / x) ^ 2) = Real.sqrt (x ^ 2 + y ^ 2) / (-x) := by
        have h1 : 1 + (y / x) ^ 2 = (x ^ 2 + y ^ 2) / x ^ 2 := by field_simp
        rw [h1, Real.sqrt_div' _ (sq_nonneg x), Real.sqrt_sq_eq_abs, abs_of_neg hx']
      by_cases hy : 0 ≤ y
      · rw [if_pos hy]
        constructor
        · rw [Real.cos_add_pi, Real.cos_arctan, hkey, one_div_div]
          field_simp
        · rw [Real.sin_add_pi, Real.sin_arctan, hkey]
          field_simp
          ring
      · rw [if_neg hy]
        constructor
        · rw [Real.cos_sub_pi, Real.cos_arctan, hkey, one_div_div]
          field_simp
        · rw [Real.sin_sub_pi, Real.sin_arctan, hkey]
          field_simp
          ring
    · have hx0 : x = 0 := le_antisymm (not_lt.mp hx) (not_lt.mp hx')
      have hy0 : y ≠ 0 := fun e => h ⟨hx0, e⟩
      rw [if_neg hx']
      by_cases hy : 0 < y
      · rw [if_pos hy, Real.cos_pi_div_two, Real.sin_pi_div_two]
        subst hx0
        rw [show (0 : ℝ) ^ 2 + y ^ 2 = y ^ 2 by ring, Real.sqrt_sq hy.le]
        constructor
        · rw [zero_div]
        · rw [div_self (ne_of_gt hy)]
      · have hy' : y < 0 := lt_of_le_of_ne (not_lt.mp hy) hy0
        rw [if_neg hy, if_pos hy', Real.cos_neg, Real.sin_neg,
          Real.cos_pi_div_two, Real.sin_pi_div_two]
        subst hx0
        rw [show (0 : ℝ) ^ 2 + y ^ 2 = y ^ 2 by ring, Real.sqrt_sq_eq_abs,
          abs_of_neg hy']
        constructor
        · rw [zero_div]
        · rw [div_neg, div_self hy0]

/-! ## Claim theorems -/

/-- C1: the rectangle measurement calculator (`updateMeasurements` in
CanvasEditor.tsx) is claimed to return area `(w·h)/pixelsPerMeter²` and
perimeter `2(w+h)/pixelsPerMeter`, in particular `(300, 70)` for a 200×150 px
rectangle at `pixelsPerMeter = 10`.  At store scale 1 the component's own
`pixelsPerMeter` is `1 * BASE_PIXELS_PER_METER = 10`, yet the code divides by
`scale²·10000` and `scale·100` and returns `(3, 7)`: the code contradicts the
claimed formula (and its own unit constant) by factors of 100 and 10. -/
theorem c1_rect_measurement_bug :
    CanvasEditor.updateMeasurementsRect 1 200 150 1 1 = (3, 7) ∧
    1 * CanvasEditor.BASE_PIXELS_PER_METER = 10 ∧
    (200 * 150 : ℚ) / 10 ^ 2 = 300 ∧
    (2 * (200 + 150) : ℚ) / 10 = 70 ∧
    (3 : ℚ) ≠ 300 ∧ (7 : ℚ) ≠ 70 := by
  refine ⟨?_, ?_, by norm_num, by norm_num, by norm_num, by norm_num⟩
  · unfold CanvasEditor.updateMeasurementsRect
    norm_num
  · unfold CanvasEditor.BASE_PIXELS_PER_METER
    norm_num

/-- C2: for positive `p` and positive `pixelsPerMeter`, converting pixels to
meters and back returns `p` (exactly, hence within the 1e-9 tolerance). -/
theorem c2_unit_roundtrip (pixelsPerMeter p : ℝ)
    (hppm : 0 < pixelsPerMeter) (hp : 0 < p) :
    |metersToPixels pixelsPerMeter (pixelsToMeters pixelsPerMeter p) - p| ≤ 1 / 10 ^ 9 := by
  unfold metersToPixels pixelsToMeters
  rw [div_mul_cancel₀ p (ne_of_gt hppm), sub_self, abs_zero]
  norm_num

theorem c2_unit_roundtrip_witness :
    |metersToPixels 10 (pixelsToMeters 10 7) - 7| ≤ 1 / 10 ^ 9 :=
  c2_unit_roundtrip 10 7 (by norm_num) (by norm_num)

/-- C3: `formatMeasurement` renders values below 1 meter as whole centimeters
(`toFixed(0)` of `m·100`, suffix " cm") and all other values as meters with
two decimals (`toFixed(2)`, suffix " m"); at the boundary, `0.99 ↦ "99 cm"`
and `1.0 ↦ "1.00 m"`. -/
theorem c3_formatMeasurement :
    (∀ m : ℝ, m < 1 → formatMeasurement m = jsToFixed 0 (m * 100) ++ " cm") ∧
    (∀ m : ℝ, 1 ≤ m → formatMeasurement m = jsToFixed 2 m ++ " m") ∧
    formatMeasurement (99 / 100) = "99 cm" ∧
    formatMeasurement 1 = "1.00 m" := by
  refine ⟨fun m hm => ?_, fun m hm => ?_, ?_, ?_⟩
  · unfold formatMeasurement
    rw [if_pos hm]
  · unfold formatMeasurement
    rw [if_neg (not_lt.mpr hm)]
  · unfold formatMeasurement jsToFixed jsRound
    rw [if_pos (by norm_num : (99 : ℝ) / 100 < 1)]
    norm_num
    decide
  · unfold formatMeasurement jsToFixed jsRound
    rw [if_neg (by norm_num : ¬(1 : ℝ) < 1)]
    norm_num
    decide

theorem c3_formatMeasurement_witness :
    formatMeasurement (1 / 2) = jsToFixed 0 ((1 / 2 : ℝ) * 100) ++ " cm" :=
  c3_formatMeasurement.1 (1 / 2) (by norm_num)

/-- C4 counterexample: the claim says an edge with raw angle 170° yields a
label angle of −10°; the code's normalization yields 350° (it adds 180°, it
never subtracts). -/
theorem c4_label_angle_counterexample :
    adjustAngle 170 = 350 ∧ (350 : ℝ) ≠ -10 := by
  constructor
  · unfold adjustAngle
    rw [if_pos (Or.inl (by norm_num))]
    norm_num
  · norm_num

/-- C4 (amended): the label angle equals the raw angle on `[-90°, 90°]` and
`raw + 180°` outside that range — congruent to `raw − 180°` modulo 360°, and
for raw angles in atan2's range `(-180°, 180°]` the result is, modulo 360°,
in `[-90°, 90°]` (never upside-down); raw 170° yields 350°. -/
theorem c4_label_angle (θ : ℝ) :
    (-90 ≤ θ ∧ θ ≤ 90 → adjustAngle θ = θ) ∧
    (θ > 90 ∨ θ < -90 → adjustAngle θ = θ + 180 ∧ adjustAngle θ - (θ - 180) = 360) ∧
    (-180 < θ ∧ θ ≤ 180 →
      ∃ k : ℤ, -90 ≤ adjustAngle θ - 360 * (k : ℝ) ∧ adjustAngle θ - 360 * (k : ℝ) ≤ 90) ∧
    adjustAngle 170 = 350 := by
  refine ⟨fun hm => ?_, fun hm => ?_, fun hm => ?_, ?_⟩
  · unfold adjustAngle
    rw [if_neg]
    push_neg
    exact ⟨hm.2, hm.1⟩
  · unfold adjustAngle
    rw [if_pos hm]
    constructor
    · rfl
    · ring
  · by_cases hbig : θ > 90 ∨ θ < -90
    · unfold adjustAngle
      rw [if_pos hbig]
      rcases hbig with h1 | h1
      · exact ⟨1, by push_cast; constructor <;> linarith [hm.2]⟩
      · exact ⟨0, by push_cast; constructor <;> linarith [hm.1]⟩
    · unfold adjustAngle
      rw [if_neg hbig]
      push_neg at hbig
      exact ⟨0, by push_cast; constructor <;> linarith [hbig.1, hbig.2]⟩
  · unfold adjustAngle
    rw [if_pos (Or.inl (by norm_num))]
    norm_num

theorem c4_label_angle_witness : adjustAngle 170 = 170 + 180 :=
  ((c4_label_angle 170).2.1 (Or.inl (by norm_num))).1

/-- C5 counterexample: the claim places the label at the midpoint of the
offset dimension line; on the edge `(0,0)-(10,0)` with offset 20 the offset
midpoint is `(5, -20)` but the source's label sits at vertical position
`-28` — 8 pixels above it — so the code and the spec-worded builder differ. -/
theorem c5_dimension_counterexample :
    textTops (createDimensionLine true 10 0 0 10 0 20) = [-28] ∧
    textTops (specBuildDimension 10 0 0 10 0 20) = [-20] ∧
    createDimensionLine true 10 0 0 10 0 20 ≠ specBuildDimension 10 0 0 10 0 20 := by
  have hθ : atan2 0 10 = 0 := by
    unfold atan2
    norm_num
  have h1 : textTops (createDimensionLine true 10 0 0 10 0 20) = [-28] := by
    unfold createDimensionLine textTops
    norm_num [hθ]
    rfl
  have h2 : textTops (specBuildDimension 10 0 0 10 0 20) = [-20] := by
    unfold specBuildDimension textTops
    norm_num [hθ]
    rfl
  refine ⟨h1, h2, fun h => ?_⟩
  rw [congrArg textTops h, h2] at h1
  norm_num at h1

/-- C5 (amended): `createDimensionLine` produces exactly the primitives the
spec describes — dimension line offset by `(sin θ, −cos θ)·offset`, two
extension lines from the original endpoints to their offset counterparts,
the two arrowheads — except that the label sits 8 pixels above the offset
midpoint; moreover the offset vector has norm `|offset|` and is perpendicular
to any nondegenerate edge. -/
theorem c5_dimension_geometry (ppm x1 y1 x2 y2 offset : ℝ) :
    createDimensionLine true ppm x1 y1 x2 y2 offset =
      (specBuildDimension ppm x1 y1 x2 y2 offset).map labelShiftedDown8 ∧
    (Real.sin (atan2 (y2 - y1) (x2 - x1)) * offset) ^ 2 +
      (-Real.cos (atan2 (y2 - y1) (x2 - x1)) * offset) ^ 2 = offset ^ 2 ∧
    (¬(x2 - x1 = 0 ∧ y2 - y1 = 0) →
      (x2 - x1) * (Real.sin (atan2 (y2 - y1) (x2 - x1)) * offset) +
        (y2 - y1) * (-Real.cos (atan2 (y2 - y1) (x2 - x1)) * offset) = 0) := by
  refine ⟨?_, ?_, fun h => ?_⟩
  · unfold createDimensionLine specBuildDimension labelShiftedDown8
    simp
  · have h1 := Real.sin_sq_add_cos_sq (atan2 (y2 - y1) (x2 - x1))
    linear_combination (offset ^ 2) * h1
  · obtain ⟨hc, hs⟩ := cos_sin_atan2 (y2 - y1) (x2 - x1) h
    rw [hc, hs]
    ring

theorem c5_dimension_geometry_witness :
    ((10 : ℝ) - 0) * (Real.sin (atan2 (0 - 0) (10 - 0)) * 20) +
      ((0 : ℝ) - 0) * (-Real.cos (atan2 (0 - 0) (10 - 0)) * 20) = 0 :=
  (c5_dimension_geometry 10 0 0 10 0 20).2.2 (by norm_num)

/-- C6 counterexample: for a zero-length edge the claim demands that building
the dimension annotation be skipped; `createDimensionLine` (canvas present)
nevertheless produces its six primitives. -/
theorem c6_zero_length_counterexample :
    createDimensionLine true 10 0 0 0 0 20 ≠ [] := by
  unfold createDimensionLine
  simp

/-- C6 (amended): a zero-length edge is not rejected — the generator's only
early return is a missing canvas.  `atan2(0,0) = 0`, so no NaN arises: the
output is a degenerate zero-length dimension line at `(0, -20)`, two
identical extension lines, two arrowheads, and a "0 cm" label at `(0, -28)`,
all with finite coordinates. -/
theorem c6_zero_length_dimension :
    createDimensionLine true 10 0 0 0 0 20 =
      [FabricPrim.line 0 (-20) 0 (-20),
       FabricPrim.line 0 0 0 (-20),
       FabricPrim.line 0 0 0 (-20),
       FabricPrim.poly
         [(0, -20), (Real.sqrt 3 / 2 * 6, -23), (Real.sqrt 3 / 2 * 6, -17)],
       FabricPrim.poly
         [(0, -20), (-(Real.sqrt 3 / 2 * 6), -17), (-(Real.sqrt 3 / 2 * 6), -23)],
       FabricPrim.text "0 cm" 0 (-28) 0] := by
  have hθ : atan2 (0 - 0) (0 - 0) = 0 := by
    unfold atan2
    norm_num
  have hd : calculateDistance 10 0 0 0 0 = 0 := by
    unfold calculateDistance pixelsToMeters
    norm_num
  have hf : formatMeasurement 0 = "0 cm" := by
    unfold formatMeasurement jsToFixed jsRound
    rw [if_pos (by norm_num : (0 : ℝ) < 1)]
    norm_num
    decide
  unfold createDimensionLine
  rw [hθ, hd]
  norm_num [hf, adjustAngle, Real.cos_pi_div_six, Real.sin_pi_div_six]

/-- C7 counterexample: the claim says per-edge measurement generation is
skipped for any polygon with fewer than 3 vertices; a 2-vertex polygon is
below that bound yet `addPolygonMeasurements` does generate and store
measurements for it (its guard is `length < 2`, not `< 3`). -/
theorem c7_polygon_guard_counterexample :
    ([((0 : ℝ), (0 : ℝ)), (10, 0)] : List (ℝ × ℝ)).length < 3 ∧
    addPolygonMeasurements true 10 ⟨1, 0, 0, 1, 0, 0⟩ [(0, 0), (10, 0)] [] "p" ≠ [] := by
  constructor
  · simp
  · unfold addPolygonMeasurements
    rw [if_neg (by simp : ¬([((0 : ℝ), (0 : ℝ)), (10, 0)] : List (ℝ × ℝ)).length < 2)]
    simp [mapSet]

/-- C7 (amended): `addPolygonMeasurements` skips (leaves the measurement map
untouched) exactly the polygons with fewer than 2 vertices, so a 2-vertex
polygon does get per-edge dimension primitives (12 of them: 6 per edge,
traversed cyclically); completing a polygon on double-click does require at
least 3 placed points. -/
theorem c7_polygon_guards :
    (∀ (canvasPresent : Bool) (ppm : ℝ) (matrix : TMat) (pts : List (ℝ × ℝ))
        (m : MeasMap) (id : String), pts.length < 2 →
        addPolygonMeasurements canvasPresent ppm matrix pts m id = m) ∧
    (∀ (tool : Tool) (pts : List (ℝ × ℝ)),
        (handleDoubleClick tool pts).isSome = true → 3 ≤ pts.length) ∧
    (polygonMeasurementPrims true 10 ⟨1, 0, 0, 1, 0, 0⟩ [(0, 0), (10, 0)]).length = 12 := by
  refine ⟨fun cp ppm matrix pts m id h => ?_, fun tool pts h => ?_, ?_⟩
  · unfold addPolygonMeasurements
    rw [if_pos h]
  · unfold handleDoubleClick at h
    by_cases hc : (tool = Tool.polygon ∨ tool = Tool.parcel) ∧ 3 ≤ pts.length
    · exact hc.2
    · rw [if_neg hc] at h
      simp at h
  · unfold polygonMeasurementPrims createDimensionLine
    simp [List.range_succ]

theorem c7_polygon_guards_witness :
    addPolygonMeasurements true 10 ⟨1, 0, 0, 1, 0, 0⟩ [(0, 0)] [("q", [])] "p" =
      [("q", [])] :=
  c7_polygon_guards.1 true 10 ⟨1, 0, 0, 1, 0, 0⟩ [(0, 0)] [("q", [])] "p" (by simp)

/-- C8: on any geometry change, `updateObjectMeasurements` discards the
annotation set stored under the shape's id and regenerates it from the
current geometry alone — the regenerated entry does not depend on the
previously stored map — while every other id's stored set is untouched. -/
theorem c8_measurements_regenerated (ppm : ℝ) (m m' : MeasMap) (id id' : String)
    (s : FShape) (h : id' ≠ id) :
    mapGet (updateObjectMeasurements true ppm m id s) id' = mapGet m id' ∧
    mapGet (updateObjectMeasurements true ppm m id s) id =
      mapGet (updateObjectMeasurements true ppm m' id s) id := by
  constructor
  · unfold updateObjectMeasurements removeMeasurements
    cases s with
    | rect l t w ht sx sy =>
        simp [addRectMeasurements, mapGet_mapSet_ne, mapGet_mapDelete_ne, h]
    | polygon mat pts =>
        by_cases hp : pts.length < 2
        · simp [addPolygonMeasurements, hp, mapGet_mapDelete_ne, h]
        · simp [addPolygonMeasurements, hp, mapGet_mapSet_ne, mapGet_mapDelete_ne, h]
    | line a b c d =>
        simp [addLineMeasurement, mapGet_mapSet_ne, mapGet_mapDelete_ne, h]
    | circle a b c d =>
        simp [addCircleMeasurements, mapGet_mapSet_ne, mapGet_mapDelete_ne, h]
    | other =>
        simp [mapGet_mapDelete_ne, h]
  · unfold updateObjectMeasurements removeMeasurements
    cases s with
    | rect l t w ht sx sy =>
        simp [addRectMeasurements, mapGet_mapSet_self]
    | polygon mat pts =>
        by_cases hp : pts.length < 2
        · simp [addPolygonMeasurements, hp, mapGet_mapDelete_self]
        · simp [addPolygonMeasurements, hp, mapGet_mapSet_self]
    | line a b c d =>
        simp [addLineMeasurement, mapGet_mapSet_self]
    | circle a b c d =>
        simp [addCircleMeasurements, mapGet_mapSet_self]
    | other =>
        simp [mapGet_mapDelete_self]

theorem c8_measurements_regenerated_witness :
    mapGet (updateObjectMeasurements true 10 [("b", [])] "a" FShape.other) "b" =
      mapGet [("b", [])] "b" ∧
    mapGet (updateObjectMeasurements true 10 [("b", [])] "a" FShape.other) "a" =
      mapGet (updateObjectMeasurements true 10 [] "a" FShape.other) "a" :=
  c8_measurements_regenerated 10 [("b", [])] [] "a" "b" FShape.other (by decide)

end Urbassist

namespace CanvasEditor

/-- C9: within one `object:moving` tick with snapping and auto-align enabled,
grid snapping is applied to the proposed position first, guide detection runs
on the snapped bounds, alignment clamping is applied to the snapped position
after detection, the emitted guide state is a pure function of the tick's
inputs (independent of any previously stored guides), and the `object:modified`
handler that ends the gesture resets the guide state to `[]`. -/
theorem c9_moving_tick_ordering (gs : GridSettings) (scale : ℚ)
    (target : MovingObject) (others : List MovingObject)
    (prevGuides : List AlignmentGuide)
    (hsnap : gs.snapToGrid = true) (halign : gs.autoAlign = true) :
    objectMovingTick gs scale target others prevGuides =
      (applyGuides gs.alignThreshold
        (snapToGrid target.left target.top gs.size (scale * BASE_PIXELS_PER_METER)).1
        (snapToGrid target.left target.top gs.size (scale * BASE_PIXELS_PER_METER)).2
        (findAlignmentGuides
          { left := (snapToGrid target.left target.top gs.size (scale * BASE_PIXELS_PER_METER)).1,
            top := (snapToGrid target.left target.top gs.size (scale * BASE_PIXELS_PER_METER)).2,
            width := target.width * target.scaleX,
            height := target.height * target.scaleY,
            id := target.id }
          (otherBoundsOf others) gs.alignThreshold),
       findAlignmentGuides
          { left := (snapToGrid target.left target.top gs.size (scale * BASE_PIXELS_PER_METER)).1,
            top := (snapToGrid target.left target.top gs.size (scale * BASE_PIXELS_PER_METER)).2,
            width := target.width * target.scaleX,
            height := target.height * target.scaleY,
            id := target.id }
          (otherBoundsOf others) gs.alignThreshold) ∧
    (∀ prevGuides' : List AlignmentGuide,
      (objectMovingTick gs scale target others prevGuides').2 =
        (objectMovingTick gs scale target others prevGuides).2) ∧
    objectModifiedGuides prevGuides = [] := by
  refine ⟨?_, fun prevGuides' => ?_, rfl⟩
  · unfold objectMovingTick
    rw [hsnap, halign]
    simp
  · unfold objectMovingTick
    rw [halign]
    simp

theorem c9_moving_tick_ordering_witness :
    objectMovingTick ⟨true, true, 1, 5⟩ 1 ⟨12, 18, 10, 10, 1, 1, "a", true, "rect"⟩
      [⟨10, 40, 30, 10, 1, 1, "b", true, "rect"⟩] [] =
      ((10, 20), [⟨GuideType.vertical, 10, "b"⟩]) ∧
    objectModifiedGuides [⟨GuideType.vertical, 10, "b"⟩] = [] := by
  have h := c9_moving_tick_ordering ⟨true, true, 1, 5⟩ 1
    ⟨12, 18, 10, 10, 1, 1, "a", true, "rect"⟩
    [⟨10, 40, 30, 10, 1, 1, "b", true, "rect"⟩] [] rfl rfl
  have h2 := c9_moving_tick_ordering ⟨true, true, 1, 5⟩ 1
    ⟨12, 18, 10, 10, 1, 1, "a", true, "rect"⟩
    [⟨10, 40, 30, 10, 1, 1, "b", true, "rect"⟩]
    [⟨GuideType.vertical, 10, "b"⟩] rfl rfl
  refine ⟨?_, h2.2.2⟩
  rw [h.1]
  simp only [snapToGrid, findAlignmentGuides, otherBoundsOf, applyGuides,
    BASE_PIXELS_PER_METER]
  norm_num [round_eq, List.find?, List.filterMap]

end CanvasEditor

namespace Urbassist

/-- C10: on pointer-up, a rectangle is committed iff both its width and
height exceed 5 px and a circle iff its radius exceeds 5 px (equivalently,
squared drag distance above 25); otherwise no shape is committed and the
measurement map is left exactly as it was. -/
theorem c10_commit_thresholds (ppm sx sy px py : ℝ) (m : MeasMap) (id : String) :
    ((handleMouseUp true Tool.rectangle ppm sx sy px py m id).1.isSome = true ↔
      5 < |px - sx| ∧ 5 < |py - sy|) ∧
    ((handleMouseUp true Tool.circle ppm sx sy px py m id).1.isSome = true ↔
      5 < Real.sqrt ((px - sx) ^ 2 + (py - sy) ^ 2)) ∧
    (¬(5 < |px - sx| ∧ 5 < |py - sy|) →
      handleMouseUp true Tool.rectangle ppm sx sy px py m id = (none, m)) ∧
    (Real.sqrt ((px - sx) ^ 2 + (py - sy) ^ 2) ≤ 5 →
      handleMouseUp true Tool.circle ppm sx sy px py m id = (none, m)) ∧
    (5 < Real.sqrt ((px - sx) ^ 2 + (py - sy) ^ 2) ↔
      25 < (px - sx) ^ 2 + (py - sy) ^ 2) := by
  have hsq : (5 : ℝ) < Real.sqrt ((px - sx) ^ 2 + (py - sy) ^ 2) ↔
      25 < (px - sx) ^ 2 + (py - sy) ^ 2 := by
    rw [Real.lt_sqrt (by norm_num : (0 : ℝ) ≤ 5)]
    norm_num
  refine ⟨?_, ?_, fun hn => ?_, fun hn => ?_, hsq⟩
  · unfold handleMouseUp
    by_cases hc : 5 < |px - sx| ∧ 5 < |py - sy|
    · simp [hc]
    · simp [hc]
  · unfold handleMouseUp
    by_cases hc : 5 < Real.sqrt ((px - sx) ^ 2 + (py - sy) ^ 2)
    · simp [hc]
    · simp [hc]
  · unfold handleMouseUp
    simp [hn]
  · unfold handleMouseUp
    simp [not_lt.mpr hn]

theorem c10_commit_thresholds_witness :
    handleMouseUp true Tool.rectangle 10 0 0 3 10 [] "s" = (none, []) :=
  (c10_commit_thresholds 10 0 0 3 10 [] "s").2.2.1
    (by
      intro hc
      have h3 : |(3 : ℝ) - 0| = 3 := by
        rw [show (3 : ℝ) - 0 = 3 by norm_num, abs_of_nonneg (by norm_num : (0 : ℝ) ≤ 3)]
      rw [h3] at hc
      exact absurd hc.1 (by norm_num))

end Urbassist
